import Mathlib

/-!
Shallow embedding of the adaptive persona-elimination flow implemented in
`src/system_a.py` (single-flow "step machine" of the movie-recommendation
app).  Each definition mirrors one function of the Python source; mutable
`st.session_state` is modelled as an explicit `SessionState` record passed
through the step functions, and every call to the language-model oracle is
modelled as an explicit input (either a structured response or a failure),
since the oracle is an external collaborator.
-/

namespace MovieRec

/-! ## Data model (spec §3, mirroring the dicts used by `system_a.py`) -/

/-- A persona dict produced by `step2_generate_profiles`
(`{"profile_id": i+1, "basic_info": ..., "personality": ..., "values": ...}`). -/
structure Persona where
  profile_id : Int
  basic_info : String
  personality : String
  vals : String
deriving DecidableEq

/-- A quantitative-analysis dict stored by `step3_quantitative_analysis`:
`{"profile_id": ..., "scores": [...], "explanations": [...]}`. -/
structure ScoreVector where
  profile_id : Int
  scores : List Int
  explanations : List String
deriving DecidableEq

/-- An entry of `st.session_state.elimination_history` appended by
`step5_eliminate_profile`. -/
structure EliminationRecord where
  eliminated_id : Int
  reason : String
  question : String
  answer : String
deriving DecidableEq

/-- A JSON-ish dict value (string or list of strings), used for
recommendation dicts returned by the oracle. -/
inductive JVal where
  | s (v : String)
  | arr (v : List String)
deriving DecidableEq

/-- A recommendation is a JSON dict (assoc list).  Python truthiness of a
dict is "the dict is non-empty". -/
def Recommendation := List (String × JVal)

instance : DecidableEq Recommendation := by
  unfold Recommendation
  infer_instance

/-- The session state of `system_a.py` (`st.session_state`), restricted to
the entities of the elimination protocol.  `experiment_mode` is the
top-level experiment-assignment marker set by `app.py` (`none` models the
key being absent or `None`).  The wall-clock fields `start_time` and
`last_api_call` are observability-only timestamps and are not modelled. -/
structure SessionState where
  step : Nat
  user_profiles : List Persona
  quantitative_analysis : List ScoreVector
  liked_movies : List String
  disliked_movies : List String
  questions_asked : List String
  answers_given : List String
  current_question : String
  current_scale : String
  current_options : List (String × String)
  final_profile : Option Persona
  recommendation : Option Recommendation
  qa_pairs : List (String × String)
  elimination_history : List EliminationRecord
  used_scale_indices : List Nat
  processing : Bool
  profiles_generated : Bool
  analysis_completed : Bool
  elimination_completed : Bool
  api_call_count : Nat
  experiment_mode : Option String
deriving DecidableEq

/-- `init_session_state`: the default values installed for every missing
key.  After a full key deletion plus rerun this is the state the app sees;
`experiment_mode` is not among the defaults (it is owned by `app.py`), so
it keeps whatever value survived the deletion (`em`). -/
def init_session_state (em : Option String) : SessionState where
  step := 1
  user_profiles := []
  quantitative_analysis := []
  liked_movies := []
  disliked_movies := []
  questions_asked := []
  answers_given := []
  current_question := ""
  current_scale := ""
  current_options := []
  final_profile := none
  recommendation := none
  qa_pairs := []
  elimination_history := []
  used_scale_indices := []
  processing := false
  profiles_generated := false
  analysis_completed := false
  elimination_completed := false
  api_call_count := 0
  experiment_mode := em

/-! ## Step 1 — intake (`step1_input_movies`, lines 224-275) -/

/-- A character of the splitting class `[,\n]`. -/
def isSplitChar (c : Char) : Bool :=
  c = ',' || c = '\n'

/-- Character-level splitter: cut the character stream at every
occurrence of a splitting character (`cur` is the current chunk,
reversed). -/
def splitCharsAux : List Char → List Char → List (List Char)
  | [], cur => [cur.reverse]
  | c :: rest, cur =>
    if isSplitChar c then cur.reverse :: splitCharsAux rest []
    else splitCharsAux rest (c :: cur)

/-- `re.split(r'[,\n]', input)`: split on every comma or newline (empty
chunks between adjacent separators are kept, as `re.split` keeps them). -/
def splitInput (input : String) : List String :=
  (splitCharsAux input.data []).map (fun cs => String.mk cs)

/-- `str.strip()` on the character list: drop whitespace from both
ends. -/
def stripChars (cs : List Char) : List Char :=
  (((cs.dropWhile Char.isWhitespace).reverse.dropWhile Char.isWhitespace).reverse)

/-- Python `item.strip()`. -/
def pystrip (s : String) : String :=
  String.mk (stripChars s.data)

/-- The cleaning loop of `step1_input_movies`:
`for item in re.split(...): clean_item = item.strip();
 if clean_item and clean_item not in acc: acc.append(clean_item)`. -/
def cleanItems (input : String) : List String :=
  (splitInput input).foldl
    (fun acc item =>
      let c := pystrip item
      if c ≠ "" ∧ c ∉ acc then acc ++ [c] else acc)
    []

/-- Result of pressing the "start analysis" button in step 1. -/
structure IntakeResult where
  moved : Bool
  liked : List String
  disliked : List String
deriving DecidableEq

/-- `step1_input_movies` button handler: requires `liked_input.strip()` to
be truthy (non-empty after stripping); cleans and dedups both lists; caps
liked at 10 and disliked at 5 (the Python code slices `[:10]` / `[:5]`
only when the length exceeds the cap, which equals an unconditional
`take`); on success sets `step = 2`. -/
def step1_input_movies (liked_input disliked_input : String) : IntakeResult :=
  if pystrip liked_input ≠ "" then
    let liked0 := cleanItems liked_input
    let disliked0 :=
      if pystrip disliked_input ≠ "" then cleanItems disliked_input else []
    ⟨true, liked0.take 10, disliked0.take 5⟩
  else
    ⟨false, [], []⟩

/-! ## Oracle gateway (`safe_llm_call`, lines 156-175) -/

/-- One observable event of `safe_llm_call`: an invocation of
`chain.invoke` (attempt number), or the fixed 2-second backoff sleep that
follows a failed non-final attempt. -/
inductive CallEvent where
  | attempt (i : Nat)
  | backoff
deriving DecidableEq

/-- Outcome of `safe_llm_call`: the invocation result is returned, the
last error is re-raised, or — only possible when `max_retries = 0` — the
`for` loop body never runs and Python falls through returning `None`. -/
inductive CallResult (α : Type) where
  | ok (a : α)
  | raised (e : String)
  | noneReturn
deriving DecidableEq

/-- The retry loop of `safe_llm_call`: `attempt` is the current loop
index, `remaining` the number of loop iterations left.  A failed attempt
with further iterations left is followed by a `2`-second backoff
(`time.sleep(2)`); a failure on the final attempt is re-raised. -/
def safeLLMCallAux (oracle : Nat → Except String α) :
    Nat → Nat → List CallEvent × CallResult α
  | _, 0 => ([], .noneReturn)
  | attempt, remaining + 1 =>
    match oracle attempt with
    | .ok a => ([.attempt attempt], .ok a)
    | .error e =>
      if remaining = 0 then
        ([.attempt attempt], .raised e)
      else
        let rest := safeLLMCallAux oracle (attempt + 1) remaining
        (.attempt attempt :: .backoff :: rest.1, rest.2)

/-- `safe_llm_call(chain, inputs, max_retries=2)`: the oracle is modelled
as a map from attempt index to that attempt's outcome. -/
def safe_llm_call (oracle : Nat → Except String α) (max_retries : Nat := 2) :
    List CallEvent × CallResult α :=
  safeLLMCallAux oracle 0 max_retries

/-- Number of `chain.invoke` attempts in a trace. -/
def numAttempts (evs : List CallEvent) : Nat :=
  evs.countP (fun e => match e with | .attempt _ => true | .backoff => false)

/-! ## Step 3 — score normalization (`step3_quantitative_analysis`,
lines 552-591) -/

/-- One entry of the oracle's `scores` list as seen by `int(score)`:
either coercible to an integer with value `n`, or not (a non-numeric
string, for which `int` raises). -/
inductive RawScore where
  | num (n : Int)
  | invalid
deriving DecidableEq

/-- The per-entry processing:
`try: num_score = int(score); valid_scores.append(max(1, min(10, num_score)))
 except: valid_scores.append(5)`. -/
def coerceScore : RawScore → Int
  | .num n => max 1 (min 10 n)
  | .invalid => 5

/-- `target_len = 7` (the number of trait dimensions). -/
def target_len : Nat := 7

/-- `l.extend([d] * (n - len(l)))` followed by `l[:n]`. -/
def padTruncate (d : α) (n : Nat) (l : List α) : List α :=
  (l ++ List.replicate (n - l.length) d).take n

/-- Normalization of the oracle's `scores` field (after the upstream
dict-to-values conversion): coerce and clamp each entry, pad with 5 up to
7 entries, truncate to 7. -/
def normalizeScores (raw : List RawScore) : List Int :=
  padTruncate 5 target_len (raw.map coerceScore)

/-- Normalization of the oracle's `explanations` field: a non-list value
is replaced by seven copies of the placeholder `"詳細なし"` ("no
detail"), then the list is padded with the placeholder to 7 entries and
truncated to 7.  `none` models a non-list value. -/
def normalizeExplanations (raw : Option (List String)) : List String :=
  let l := match raw with
    | some l => l
    | none => List.replicate 7 "詳細なし"
  padTruncate "詳細なし" target_len l

/-- The whole-result fallback (lines 586-591): when the oracle call
raises or the result is not a dict, the persona receives an all-default
score vector. -/
def fallbackAnalysis (pid : Int) : ScoreVector :=
  ⟨pid, List.replicate 7 5, List.replicate 7 "分析失敗"⟩

/-! ## Step 4 — question selector (`step4_generate_question`,
lines 733-761) -/

/-- One entry of `scale_definitions` (the trait model). -/
structure ScaleDefinition where
  id : Nat
  technical : String
  keywords : String
  simple_topic : String
deriving DecidableEq

/-- The seven trait dimensions defined inline in
`step4_generate_question`. -/
def scale_definitions : List ScaleDefinition :=
  [ ⟨0, "認知的複雑性 (SCC)", "伏線回収、謎解き、考察、難解", "ストーリーの複雑さ"⟩,
    ⟨1, "情動的強度 (ASI)", "ハラハラドキドキ、衝撃的、アクション、スピード感", "刺激と興奮"⟩,
    ⟨2, "道徳的整合性 (MVA)", "社会派、正義、勧善懲悪、メッセージ性", "道徳的テーマ"⟩,
    ⟨3, "心理的安全性 (PSF)", "ハッピーエンド、王道、安心感、癒やし", "安心感"⟩,
    ⟨4, "美的・抽象性 (AAO)", "映像美、独特な世界観、雰囲気、芸術的", "映像と雰囲気"⟩,
    ⟨5, "社会的密度 (SRD)", "人間関係、恋愛、友情、会話劇", "人間ドラマ"⟩,
    ⟨6, "実用的リアリズム (PRI)", "実話ベース、リアリティ、ドキュメンタリータッチ", "リアリティ"⟩ ]

/-- Row padding: `np.pad(..., (0, 7 - width), 'constant')` followed by
the column slice `[:, :7]` — a row is brought to exactly 7 entries,
padding with 0 on the right and truncating beyond 7. -/
def padRow (row : List Int) : List Int :=
  (row ++ List.replicate (7 - row.length) 0).take 7

/-- Column `j` of the (padded, sliced) score matrix. -/
def colOf (m : List (List Int)) (j : Nat) : List Int :=
  m.map (fun row => (padRow row).getD j 0)

/-- Integer numerator of the population variance:
`n·Σx² − (Σx)²` for a column of length `n`. -/
def varNum (col : List Int) : Int :=
  (col.length : Int) * (col.map (fun x => x ^ 2)).sum - col.sum ^ 2

/-- `np.var` of a column (population variance, exact rational value):
`Var = (n·Σx² − (Σx)²) / n²`, which equals the mean of squared
deviations from the mean.  Empty input is out of scope (the population is
non-empty whenever the selector runs); we return 0 there for totality. -/
def npVar (col : List Int) : ℚ :=
  if col.length = 0 then 0
  else (varNum col : ℚ) / (col.length : ℚ) ^ 2

/-- `variances = np.var(scores_array[:, :7], axis=0)`. -/
def variancesOf (m : List (List Int)) : List ℚ :=
  (List.range 7).map (fun j => npVar (colOf m j))

/-- `for idx in used: if idx < len(variances): variances[idx] = -1.0`. -/
def maskVariances (used : List Nat) (vars : List ℚ) : List ℚ :=
  (List.range vars.length).map (fun i => if i ∈ used then -1 else vars.getD i 0)

/-- The maximum value of a list (`foldl max` over the tail, as reached by
`np.argmax`'s scan); 0 for the empty list (out of scope). -/
def listMax : List ℚ → ℚ
  | [] => 0
  | x :: xs => xs.foldl max x

/-- `int(np.argmax(l))`: the FIRST index at which the maximum value of
`l` is attained (`np.argmax` documentation: "In case of multiple
occurrences of the maximum values, the indices corresponding to the first
occurrence are returned"); 0 for the empty list. -/
def argmax (l : List ℚ) : Nat :=
  l.findIdx (fun x => x = listMax l)

/-- Result of the dimension-selection part of `step4_generate_question`:
the chosen index, the `used_scale_indices` list after the call, and
whether the exhaustion reset fired. -/
structure SelectResult where
  index : Nat
  used_after : List Nat
  didReset : Bool
deriving DecidableEq

/-- Lines 733-761 of `step4_generate_question`: compute the per-dimension
variances, force used dimensions to the sentinel -1.0, take `argmax`; if
the selected entry is the sentinel (all dimensions exhausted), reset
`used_scale_indices` to `[]`, recompute the variances without masking and
take `argmax` again; finally append the selected index to
`used_scale_indices`. -/
def selectDimension (m : List (List Int)) (used : List Nat) : SelectResult :=
  let variances := variancesOf m
  let masked := maskVariances used variances
  let max_var_index := argmax masked
  if masked.getD max_var_index 0 = -1 then
    let variances2 := variancesOf m
    let max_var_index2 := argmax variances2
    ⟨max_var_index2, [max_var_index2], true⟩
  else
    ⟨max_var_index, used ++ [max_var_index], false⟩

/-! ## Step 5 — elimination engine (`step5_eliminate_profile`,
lines 820-948) -/

/-- The `eliminated_id` field of the oracle's JSON reply as seen by
`result.get('eliminated_id', 1)` followed by `int(eliminated_id)`:
absent (the `.get` default 1 applies), an int-coercible value of value
`n`, or a value on which `int` raises. -/
inductive RawId where
  | absent
  | intVal (n : Int)
  | notCoercible
deriving DecidableEq

/-- `eliminated_id = result.get('eliminated_id', 1);
try: eliminated_id = int(eliminated_id) except: eliminated_id = 1`. -/
def coerceEliminatedId : RawId → Int
  | .absent => 1
  | .intVal n => n
  | .notCoercible => 1

/-- The structured reply of the elimination oracle
(`{"eliminated_id": ..., "reason": ...}`); `reason = none` models an
absent field, replaced by the `.get` default. -/
structure ElimResponse where
  eliminated_id : RawId
  reason : Option String
deriving DecidableEq

/-- Outcome of one logical oracle call at a step boundary: a validated
JSON object, or an exception raised out of `safe_llm_call`. -/
inductive OracleOutcome (α : Type) where
  | ok (r : α)
  | failure
deriving DecidableEq

/-- `step5_eliminate_profile`, state effect of one invocation.
Guard 1 (lines 827-833): with at most one persona left, set
`final_profile` to the first persona (`None` when the population is
empty) and stop — no elimination runs.
Guard 2: when `elimination_completed` is already set, only display
happens (the rendered branch at lines 924-948 additionally re-sets
`final_profile` when exactly one persona remains — modelled too).
Success path (lines 875-908): coerce the oracle's id, append an
`EliminationRecord` carrying the latest question/answer, and filter BOTH
`user_profiles` and `quantitative_analysis` by
`profile_id != eliminated_id`.
Failure path (lines 910-922): drop the FIRST persona
(`user_profiles[1:]`), append a record with reason "システムエラー" —
`quantitative_analysis` is NOT filtered on this path. -/
def step5_eliminate_profile (oracle : OracleOutcome ElimResponse)
    (s : SessionState) : SessionState :=
  if s.user_profiles.length ≤ 1 then
    { s with final_profile := s.user_profiles.head? }
  else if s.elimination_completed then
    s
  else
    match oracle with
    | .ok r =>
      let eliminated_id := coerceEliminatedId r.eliminated_id
      let reason := r.reason.getD "ユーザーの回答履歴と一致しない"
      let last_q := s.questions_asked.getLast?.getD "N/A"
      let last_a := s.answers_given.getLast?.getD "N/A"
      { s with
        elimination_history :=
          s.elimination_history ++ [⟨eliminated_id, reason, last_q, last_a⟩],
        user_profiles :=
          s.user_profiles.filter (fun p => p.profile_id ≠ eliminated_id),
        quantitative_analysis :=
          s.quantitative_analysis.filter (fun a => a.profile_id ≠ eliminated_id),
        elimination_completed := true }
    | .failure =>
      match s.user_profiles with
      | [] => s
      | eliminated_profile :: rest =>
        { s with
          user_profiles := rest,
          elimination_history :=
            s.elimination_history ++
              [⟨eliminated_profile.profile_id, "システムエラー", "N/A", "N/A"⟩],
          elimination_completed := true }

/-! ## Restart paths (C6) -/

/-- The sidebar restart button in `main` (lines 1245-1249, commented
"experiment_mode保護版"): delete every session key EXCEPT
`experiment_mode`, then rerun — `init_session_state` re-installs the
defaults around the surviving marker. -/
def restart_sidebar (s : SessionState) : SessionState :=
  init_session_state s.experiment_mode

/-- The "最初からやり直す" button in `step7_generate_qa`
(lines 1192-1195): delete EVERY session key, `experiment_mode` included;
after the rerun `app.py` finds the marker absent and re-initialises it to
`None`. -/
def restart_step7 (_s : SessionState) : SessionState :=
  init_session_state none

/-! ## Step 4/5 terminal checks and step 6 — recommendation
(`step6_generate_recommendation`, lines 952-1037; regenerate button at
lines 1092-1094) -/

/-- The terminal check at the top of `step4_generate_question`
(lines 613-622): with at most one persona remaining, pressing the button
sets `final_profile` to the head of the population (`None` when empty)
and moves to step 6. -/
def step4_check_terminal (s : SessionState) : SessionState :=
  if s.user_profiles.length ≤ 1 then
    { s with final_profile := s.user_profiles.head?, step := 6 }
  else s

/-- The hardcoded default recommendation substituted on oracle failure
(lines 1027-1036); field values abbreviated to the identifying ones. -/
def defaultRecommendation : Recommendation :=
  [ ("recommended_movie", .s "ショーシャンクの空に"),
    ("year", .s "1994"),
    ("genre", .arr ["ドラマ", "犯罪"]),
    ("director", .s "フランク・ダラボン") ]

/-- Python truthiness of the cached recommendation value
(`if st.session_state.recommendation:`): present and a non-empty dict. -/
def recTruthy : Option Recommendation → Bool
  | none => false
  | some r => decide (r ≠ [])

/-- `step6_generate_recommendation`, state effect of one entry.
`if not final_profile:` → error message, return (no oracle call, no
state change).  `if recommendation:` → display the cached value, return.
Otherwise one logical oracle call is made (counted in
`api_call_count`); its result — or, on failure, the hardcoded default —
is stored in `recommendation`. -/
def step6_generate_recommendation (oracle : OracleOutcome Recommendation)
    (s : SessionState) : SessionState :=
  match s.final_profile with
  | none => s
  | some _ =>
    if recTruthy s.recommendation then
      s
    else
      match oracle with
      | .ok r =>
        { s with recommendation := some r,
                 api_call_count := s.api_call_count + 1 }
      | .failure =>
        { s with recommendation := some defaultRecommendation,
                 api_call_count := s.api_call_count + 1 }

/-- The "推薦を再生成" (regenerate) button in `display_recommendation`
(lines 1092-1094): clear the cache. -/
def regenerate_recommendation (s : SessionState) : SessionState :=
  { s with recommendation := none }

/-! ## Abbreviations used by theorem statements -/

/-- The masked variance vector computed inside `step4_generate_question`
(variances with used dimensions forced to -1.0). -/
def maskedOf (m : List (List Int)) (used : List Nat) : List ℚ :=
  maskVariances used (variancesOf m)

/-- A sample persona with a given id (concrete states for evaluation). -/
def samplePersona (i : Int) : Persona :=
  ⟨i, "info", "personality", "values"⟩

/-- A sample score vector with a given id. -/
def sampleSV (i : Int) : ScoreVector :=
  ⟨i, [5, 5, 5, 5, 5, 5, 5], ["e", "e", "e", "e", "e", "e", "e"]⟩

/-- A session state sitting at the elimination step with the given
surviving profile ids (personas and score vectors in lockstep). -/
def sampleState (ids : List Int) : SessionState :=
  { init_session_state none with
      step := 5
      user_profiles := ids.map samplePersona
      quantitative_analysis := ids.map sampleSV }

/-! ## Counterexample theorems -/

/-- C1 counterexample: a population of size k = 2 holding the personas
with ids 2 and 3 (id 1 was eliminated in an earlier round).  The oracle
returns a non-integer-coercible `eliminated_id`, so the code defaults the
id to 1, and the filter `profile_id != 1` removes NOBODY: the population
still has 2 personas after the invocation, refuting "exactly one persona
is removed per invocation — never zero". -/
theorem C1_cex_zero_removed :
    (sampleState [2, 3]).user_profiles.length = 2 ∧
    (step5_eliminate_profile (.ok ⟨.notCoercible, none⟩)
        (sampleState [2, 3])).user_profiles.length = 2 := by
  constructor <;> rfl

/-- C2 counterexample: personas and score vectors both hold ids 1 and 2;
the oracle call fails, so the fallback path removes the first persona
(id 1) from `user_profiles` but does NOT touch `quantitative_analysis`:
afterwards id 1 is gone from the persona set yet still present in the
score-vector set — a state with mismatched sets, observed by every later
step. -/
theorem C2_cex_mismatched_sets :
    ((step5_eliminate_profile .failure
        (sampleState [1, 2])).user_profiles.map Persona.profile_id = [2]) ∧
    ((step5_eliminate_profile .failure
        (sampleState [1, 2])).quantitative_analysis.map ScoreVector.profile_id
      = [1, 2]) := by
  constructor <;> rfl

/-- C3 counterexample: the population holds the personas with ids 2 and 3
and the oracle returns a non-numeric `eliminated_id` (the spec's
`"abc"` scenario) with reason "r".  The claim says the first persona in
current ordering (id 2) is removed with reason
"fallback — oracle unavailable"; the code instead defaults the id to 1,
removes nobody (both personas survive), and records the oracle's own
reason "r". -/
theorem C3_cex_no_first_element_fallback :
    ((step5_eliminate_profile (.ok ⟨.notCoercible, some "r"⟩)
        (sampleState [2, 3])).user_profiles.map Persona.profile_id = [2, 3]) ∧
    ((step5_eliminate_profile (.ok ⟨.notCoercible, some "r"⟩)
        (sampleState [2, 3])).elimination_history.map EliminationRecord.reason
      = ["r"]) := by
  constructor <;> rfl

/-- C6: evaluation of the two restart paths at the failing input (a
session in the follow-up Q&A step with `experiment_mode = "A"`).  The
sidebar restart of `main` preserves the experiment-assignment marker and
returns to step 1, as the claim states; the restart button of
`step7_generate_qa` deletes every key, so the marker does NOT survive
that restart. -/
theorem C6_step7_restart_drops_marker :
    (restart_step7
        { sampleState [1] with step := 7, experiment_mode := some "A" }).experiment_mode
      = none ∧
    (restart_sidebar
        { sampleState [1] with step := 7, experiment_mode := some "A" }).experiment_mode
      = some "A" ∧
    (restart_sidebar
        { sampleState [1] with step := 7, experiment_mode := some "A" }).step = 1 ∧
    (restart_sidebar
        { sampleState [1] with step := 7, experiment_mode := some "A" })
      = init_session_state (some "A") := by
  refine ⟨rfl, rfl, rfl, rfl⟩

/-- C7 counterexample: the liked-works input `","` is non-blank, so the
button handler accepts it and transitions to persona generation — yet it
contains no liked-work string at all: the stored liked list is empty,
refuting "the transition requires at least one liked-work string". -/
theorem C7_cex_empty_liked_transition :
    (step1_input_movies "," "").moved = true ∧
    (step1_input_movies "," "").liked = [] := by
  constructor <;> rfl

/-! ## C8 — oracle gateway retry policy -/

/-- C8: `safe_llm_call` with `max_retries = 2` makes at most 2 attempts;
a successful first attempt returns at once; a failed first attempt is
followed by the fixed backoff and one retry; and when the final attempt
also fails the exception is re-raised to the caller (never swallowed). -/
theorem C8_retry_policy (α : Type) (oracle : Nat → Except String α) :
    numAttempts (safe_llm_call oracle 2).1 ≤ 2 ∧
    (∀ a, oracle 0 = .ok a →
        safe_llm_call oracle 2 = ([.attempt 0], .ok a)) ∧
    (∀ e a, oracle 0 = .error e → oracle 1 = .ok a →
        safe_llm_call oracle 2 = ([.attempt 0, .backoff, .attempt 1], .ok a)) ∧
    (∀ e e2, oracle 0 = .error e → oracle 1 = .error e2 →
        safe_llm_call oracle 2 = ([.attempt 0, .backoff, .attempt 1], .raised e2)) := by
  have c2 : ∀ a, oracle 0 = .ok a →
      safe_llm_call oracle 2 = ([.attempt 0], .ok a) := by
    intro a h
    simp [safe_llm_call, safeLLMCallAux, h]
  have c3 : ∀ e a, oracle 0 = .error e → oracle 1 = .ok a →
      safe_llm_call oracle 2 = ([.attempt 0, .backoff, .attempt 1], .ok a) := by
    intro e a h0 h1
    simp [safe_llm_call, safeLLMCallAux, h0, h1]
  have c4 : ∀ e e2, oracle 0 = .error e → oracle 1 = .error e2 →
      safe_llm_call oracle 2 = ([.attempt 0, .backoff, .attempt 1], .raised e2) := by
    intro e e2 h0 h1
    simp [safe_llm_call, safeLLMCallAux, h0, h1]
  refine ⟨?_, c2, c3, c4⟩
  cases h0 : oracle 0 with
  | ok a => rw [c2 a h0]; show (1 : Nat) ≤ 2; omega
  | error e =>
    cases h1 : oracle 1 with
    | ok a => rw [c3 e a h0 h1]; show (2 : Nat) ≤ 2; omega
    | error e2 => rw [c4 e e2 h0 h1]; show (2 : Nat) ≤ 2; omega

/-- C8 witness: with an oracle that fails on every attempt, the call
produces attempt 0, the fixed backoff, attempt 1, and re-raises the final
error. -/
theorem C8_retry_policy_witness :
    safe_llm_call (fun _ => (Except.error "boom" : Except String Nat)) 2
      = ([.attempt 0, .backoff, .attempt 1], .raised "boom") :=
  (C8_retry_policy Nat (fun _ => Except.error "boom")).2.2.2 "boom" "boom" rfl rfl

/-! ## C9 — recommendation caching -/

/-- C9: entering the recommendation step while a (non-empty, hence
Python-truthy) recommendation is cached leaves the whole state unchanged
— in particular `api_call_count` is unchanged, so the oracle is not
invoked and the cached value is redisplayed as is; the regenerate button
clears exactly the cache and nothing else; and the recommendation step
itself never clears a cache — only the explicit regenerate request
does. -/
theorem C9_cached_recommendation_idempotent :
    (∀ (s : SessionState) (oracle : OracleOutcome Recommendation)
        (r : Recommendation),
        s.final_profile.isSome = true → s.recommendation = some r → r ≠ [] →
        step6_generate_recommendation oracle s = s) ∧
    (∀ s : SessionState,
        regenerate_recommendation s = { s with recommendation := none }) ∧
    (∀ (s : SessionState) (oracle : OracleOutcome Recommendation),
        (step6_generate_recommendation oracle s).recommendation = none →
        s.recommendation = none) := by
  refine ⟨?_, fun s => rfl, ?_⟩
  · intro s oracle r hfp hrec hne
    cases hp : s.final_profile with
    | none => rw [hp] at hfp; simp at hfp
    | some p =>
      simp only [step6_generate_recommendation, hp]
      rw [hrec]
      simp [recTruthy, hne]
  · intro s oracle h
    cases hp : s.final_profile with
    | none =>
      simp only [step6_generate_recommendation, hp] at h
      exact h
    | some p =>
      simp only [step6_generate_recommendation, hp] at h
      by_cases ht : recTruthy s.recommendation = true
      · rw [if_pos ht] at h; exact h
      · rw [if_neg ht] at h
        cases oracle <;> simp at h

/-- C9 witness: a state with a final profile and the (non-empty) default
recommendation cached is returned unchanged even when the oracle would
fail. -/
theorem C9_cached_recommendation_witness :
    step6_generate_recommendation .failure
      { sampleState [1] with
          final_profile := some (samplePersona 1),
          recommendation := some defaultRecommendation }
      = { sampleState [1] with
          final_profile := some (samplePersona 1),
          recommendation := some defaultRecommendation } :=
  C9_cached_recommendation_idempotent.1 _ .failure defaultRecommendation rfl rfl
    (by decide)

/-! ## C10 — empty population is terminal -/

/-- C10: with an empty persona population, the question step's terminal
branch sets `final_profile` to `None` and moves to the recommendation
step; the elimination step's guard likewise sets `final_profile` to
`None` and eliminates nobody; and the recommendation step, finding no
final profile, leaves the state unchanged — no recommendation is
produced and `api_call_count` is untouched, i.e. the oracle is not
invoked (and, the step functions being total, nothing crashes). -/
theorem C10_empty_population_terminal :
    (∀ s : SessionState, s.user_profiles = [] →
        (step4_check_terminal s).final_profile = none ∧
        (step4_check_terminal s).step = 6) ∧
    (∀ (s : SessionState) (oracle : OracleOutcome ElimResponse),
        s.user_profiles = [] →
        (step5_eliminate_profile oracle s).final_profile = none ∧
        (step5_eliminate_profile oracle s).user_profiles = []) ∧
    (∀ (s : SessionState) (oracle : OracleOutcome Recommendation),
        s.final_profile = none →
        step6_generate_recommendation oracle s = s) := by
  refine ⟨?_, ?_, ?_⟩
  · intro s h
    simp [step4_check_terminal, h]
  · intro s oracle h
    simp [step5_eliminate_profile, h]
  · intro s oracle h
    simp [step6_generate_recommendation, h]

/-- C10 witness: concrete empty-population state. -/
theorem C10_empty_population_witness :
    (step5_eliminate_profile (.ok ⟨.intVal 1, none⟩)
        (sampleState [])).final_profile = none ∧
    (step5_eliminate_profile (.ok ⟨.intVal 1, none⟩)
        (sampleState [])).user_profiles = [] :=
  (C10_empty_population_terminal.2.1 (sampleState []) (.ok ⟨.intVal 1, none⟩) rfl)

/-! ## Helper lemmas for padding/truncation -/

theorem padTruncate_length (d : α) (n : Nat) (l : List α) :
    (padTruncate d n l).length = n := by
  rw [padTruncate, List.length_take, List.length_append, List.length_replicate]
  omega

theorem padTruncate_getElem_lt (d : α) (n : Nat) (l : List α) (i : Nat)
    (h1 : i < l.length) (h2 : i < n) :
    (padTruncate d n l)[i]? = l[i]? := by
  rw [padTruncate, List.getElem?_take_of_lt h2, List.getElem?_append_left h1]

theorem padTruncate_getElem_pad (d : α) (n : Nat) (l : List α) (i : Nat)
    (h1 : l.length ≤ i) (h2 : i < n) :
    (padTruncate d n l)[i]? = some d := by
  rw [padTruncate, List.getElem?_take_of_lt h2, List.getElem?_append_right h1,
    List.getElem?_replicate_of_lt (by omega)]

theorem padTruncate_mem (d : α) (n : Nat) (l : List α) (x : α)
    (hx : x ∈ padTruncate d n l) : x ∈ l ∨ x = d := by
  have hm := List.mem_of_mem_take hx
  rcases List.mem_append.1 hm with h | h
  · exact Or.inl h
  · exact Or.inr (List.eq_of_mem_replicate h)

theorem coerceScore_bounds (r : RawScore) :
    1 ≤ coerceScore r ∧ coerceScore r ≤ 10 := by
  cases r <;> simp only [coerceScore] <;> constructor <;> omega

/-! ## C5 — score-vector normalization -/

/-- C5: for any oracle scoring output, the stored vector has exactly 7
scores and 7 explanations; every stored score is an integer in [1,10]
(each entry is clamped, a non-coercible entry becomes 5, which
`coerceScore` captures); entries beyond the oracle output are padded with
score 5 and, for explanations, with the placeholder "詳細なし" ("no
detail"); entries up to position 7 are the coerced oracle entries in
order (so longer outputs are truncated to 7); and the whole-result
fallback vector also has exactly the 7/7 shape — a malformed shape never
propagates. -/
theorem C5_score_vector_normalization (raw : List RawScore)
    (rawE : Option (List String)) (pid : Int) :
    (normalizeScores raw).length = 7 ∧
    (normalizeExplanations rawE).length = 7 ∧
    (∀ x ∈ normalizeScores raw, 1 ≤ x ∧ x ≤ 10) ∧
    (∀ i : Nat, i < 7 → i < raw.length →
        (normalizeScores raw)[i]? = (raw[i]?).map coerceScore) ∧
    (∀ i : Nat, raw.length ≤ i → i < 7 → (normalizeScores raw)[i]? = some 5) ∧
    (∀ es : List String, rawE = some es → ∀ i : Nat, es.length ≤ i → i < 7 →
        (normalizeExplanations rawE)[i]? = some "詳細なし") ∧
    (fallbackAnalysis pid).scores.length = 7 ∧
    (fallbackAnalysis pid).explanations.length = 7 := by
  refine ⟨?_, ?_, ?_, ?_, ?_, ?_, rfl, rfl⟩
  · exact padTruncate_length 5 target_len (raw.map coerceScore)
  · cases rawE with
    | none => exact padTruncate_length _ target_len _
    | some es => exact padTruncate_length _ target_len _
  · intro x hx
    rcases padTruncate_mem _ _ _ _ hx with h | h
    · rcases List.mem_map.1 h with ⟨r, _, rfl⟩
      exact coerceScore_bounds r
    · subst h; omega
  · intro i h7 hlen
    rw [normalizeScores,
      padTruncate_getElem_lt 5 target_len _ i (by simpa using hlen) h7,
      List.getElem?_map]
  · intro i hlen h7
    rw [normalizeScores,
      padTruncate_getElem_pad 5 target_len _ i (by simpa using hlen) h7]
  · intro es hes i hlen h7
    subst hes
    exact padTruncate_getElem_pad _ target_len _ i hlen h7

/-- C5 witness: a concrete 3-entry oracle output with an out-of-range and
a non-coercible entry. -/
theorem C5_score_vector_normalization_witness :
    (normalizeScores [.num 12, .invalid, .num 0]).length = 7 ∧
    (normalizeScores [.num 12, .invalid, .num 0])[3]? = some 5 ∧
    (normalizeExplanations (some ["a"]))[5]? = some "詳細なし" := by
  refine ⟨(C5_score_vector_normalization [.num 12, .invalid, .num 0]
      (some ["a"]) 1).1, ?_, ?_⟩
  · exact (C5_score_vector_normalization [.num 12, .invalid, .num 0]
      (some ["a"]) 1).2.2.2.2.1 3 (by decide) (by decide)
  · exact (C5_score_vector_normalization [.num 12, .invalid, .num 0]
      (some ["a"]) 1).2.2.2.2.2.1 ["a"] rfl 5 (by decide) (by decide)

/-! ## Helper lemmas for the intake cleaning fold -/

theorem cleanFold_nodup (items : List String) (acc : List String)
    (h : acc.Nodup) :
    (items.foldl (fun acc item =>
      let c := pystrip item
      if c ≠ "" ∧ c ∉ acc then acc ++ [c] else acc) acc).Nodup := by
  induction items generalizing acc with
  | nil => exact h
  | cons it rest ih =>
    rw [List.foldl_cons]
    apply ih
    dsimp only
    split
    · next hc =>
      rw [List.nodup_append]
      exact ⟨h, List.nodup_singleton _, by
        intro a ha hb
        rw [List.mem_singleton] at hb
        subst hb
        exact hc.2 ha⟩
    · exact h

theorem cleanFold_mem (items : List String) (acc : List String) (x : String)
    (hx : x ∈ items.foldl (fun acc item =>
      let c := pystrip item
      if c ≠ "" ∧ c ∉ acc then acc ++ [c] else acc) acc) :
    x ∈ acc ∨ (x ≠ "" ∧ ∃ it ∈ items, pystrip it = x) := by
  induction items generalizing acc with
  | nil => exact Or.inl hx
  | cons it rest ih =>
    rw [List.foldl_cons] at hx
    rcases ih _ hx with h | h
    · dsimp only at h
      split at h
      · next hc =>
        rcases List.mem_append.1 h with h2 | h2
        · exact Or.inl h2
        · rw [List.mem_singleton] at h2
          subst h2
          exact Or.inr ⟨hc.1, it, List.mem_cons_self it rest, rfl⟩
      · exact Or.inl h
    · exact Or.inr ⟨h.1, h.2.choose, List.mem_cons_of_mem it h.2.choose_spec.1,
        h.2.choose_spec.2⟩

theorem cleanItems_nodup (input : String) : (cleanItems input).Nodup :=
  cleanFold_nodup _ _ List.nodup_nil

theorem cleanItems_mem (input : String) (x : String)
    (hx : x ∈ cleanItems input) :
    x ≠ "" ∧ ∃ it ∈ splitInput input, pystrip it = x := by
  rcases cleanFold_mem _ _ _ hx with h | h
  · simp at h
  · exact h

/-! ## C7 — intake: caps, truncation, dedup (amended) -/

/-- C7 amended: the transition fires exactly when the RAW liked input is
non-blank after stripping (so an input of only separators transitions
with zero stored liked works — see the counterexample); at most 10 liked
and 5 disliked works are stored; the stored lists are duplicate-free
under exact (case-sensitive) string comparison of the stripped entries;
every stored entry is a non-empty stripped input chunk; and the stored
liked list is the first 10 cleaned entries in input order (dedup first,
then truncation). -/
theorem C7_intake_caps_and_dedup (li di : String) :
    ((step1_input_movies li di).moved = true ↔ pystrip li ≠ "") ∧
    (step1_input_movies li di).liked.length ≤ 10 ∧
    (step1_input_movies li di).disliked.length ≤ 5 ∧
    (step1_input_movies li di).liked.Nodup ∧
    (step1_input_movies li di).disliked.Nodup ∧
    (∀ x ∈ (step1_input_movies li di).liked,
        x ≠ "" ∧ ∃ it ∈ splitInput li, pystrip it = x) ∧
    ((step1_input_movies li di).moved = true →
        (step1_input_movies li di).liked = (cleanItems li).take 10) := by
  by_cases hli : pystrip li = ""
  · have hstep : step1_input_movies li di = ⟨false, [], []⟩ := by
      simp [step1_input_movies, hli]
    rw [hstep]
    exact ⟨by simp [hli], by simp, by simp, List.nodup_nil, List.nodup_nil,
      by simp, by simp⟩
  · have hstep : step1_input_movies li di =
        ⟨true, (cleanItems li).take 10,
          (if pystrip di ≠ "" then cleanItems di else []).take 5⟩ := by
      simp [step1_input_movies, hli]
    rw [hstep]
    refine ⟨by simp [hli], List.length_take_le 10 _, List.length_take_le 5 _,
      (List.take_sublist 10 _).nodup (cleanItems_nodup li), ?_, ?_, fun _ => rfl⟩
    · split
      · exact (List.take_sublist 5 _).nodup (cleanItems_nodup di)
      · exact List.nodup_nil
    · intro x hx
      exact cleanItems_mem li x (List.mem_of_mem_take hx)

/-- C7 witness: a concrete input with duplicates, stray whitespace and
more than 10 liked entries. -/
theorem C7_intake_caps_witness :
    (step1_input_movies "a, b ,a,c,d,e,f,g,h,i,j,k" "x,x,y").moved = true ∧
    (step1_input_movies "a, b ,a,c,d,e,f,g,h,i,j,k" "x,x,y").liked
      = ["a", "b", "c", "d", "e", "f", "g", "h", "i", "j"] ∧
    (step1_input_movies "a, b ,a,c,d,e,f,g,h,i,j,k" "x,x,y").disliked
      = ["x", "y"] ∧
    (step1_input_movies "a, b ,a,c,d,e,f,g,h,i,j,k" "x,x,y").liked.length ≤ 10 := by
  refine ⟨?_, rfl, rfl,
    (C7_intake_caps_and_dedup "a, b ,a,c,d,e,f,g,h,i,j,k" "x,x,y").2.1⟩
  exact (C7_intake_caps_and_dedup "a, b ,a,c,d,e,f,g,h,i,j,k" "x,x,y").1.2
    (by intro h; simp [pystrip, stripChars] at h)

/-! ## Helper lemmas for id-based filtering -/

theorem filter_ne_eq_self (f : α → Int) (l : List α) (e : Int)
    (h : e ∉ l.map f) : l.filter (fun x => f x ≠ e) = l := by
  apply List.filter_eq_self.mpr
  intro a ha
  simp only [ne_eq, decide_eq_true_eq]
  intro heq
  exact h (List.mem_map.mpr ⟨a, ha, heq⟩)

theorem filter_ne_length (f : α → Int) (l : List α) (e : Int)
    (hn : (l.map f).Nodup) (he : e ∈ l.map f) :
    (l.filter (fun x => f x ≠ e)).length + 1 = l.length := by
  induction l with
  | nil => simp at he
  | cons a t ih =>
    rw [List.map_cons, List.nodup_cons] at hn
    rw [List.filter_cons]
    rcases List.mem_cons.1 he with h | h
    · subst h
      rw [if_neg (by simp)]
      rw [filter_ne_eq_self f t (f a) hn.1]
      simp
    · have hne : f a ≠ e := by
        intro hEq
        rw [hEq] at hn
        exact hn.1 h
      rw [if_pos (by simp [hne])]
      simp only [List.length_cons]
      have := ih hn.2 h
      omega

theorem map_filter_ne (f : α → Int) (l : List α) (e : Int) :
    (l.filter (fun x => f x ≠ e)).map f
      = (l.map f).filter (fun v => v ≠ e) := by
  induction l with
  | nil => rfl
  | cons a t ih =>
    by_cases h : f a = e
    · rw [List.map_cons, List.filter_cons, List.filter_cons,
        if_neg (by simp [h]), if_neg (by simp [h])]
      exact ih
    · rw [List.map_cons, List.filter_cons, List.filter_cons,
        if_pos (by simp [h]), if_pos (by simp [h])]
      rw [List.map_cons, ih]

/-! ## C1 — exactly-one-removed (amended) -/

/-- C1 amended: an invocation of the elimination step removes AT MOST one
persona.  With the population at size ≤ 1 the elimination logic does not
run and the population is unchanged.  With size k > 1 (and the round not
yet completed): the oracle-failure fallback always removes exactly one
persona (the first), leaving k−1; a successful oracle reply removes
exactly one persona when the coerced id matches a surviving persona, but
removes NOBODY when it matches none — which happens in particular when a
non-coercible id defaults to 1 after persona 1 was already eliminated
(see the counterexample). -/
theorem C1_elimination_removes_at_most_one (s : SessionState)
    (oracle : OracleOutcome ElimResponse) :
    (s.user_profiles.length ≤ 1 →
        (step5_eliminate_profile oracle s).user_profiles = s.user_profiles) ∧
    (1 < s.user_profiles.length → s.elimination_completed = false →
        (s.user_profiles.map Persona.profile_id).Nodup →
        (oracle = .failure →
            (step5_eliminate_profile oracle s).user_profiles.length + 1
              = s.user_profiles.length) ∧
        (∀ r, oracle = .ok r →
          (coerceEliminatedId r.eliminated_id
              ∈ s.user_profiles.map Persona.profile_id →
            (step5_eliminate_profile oracle s).user_profiles.length + 1
              = s.user_profiles.length) ∧
          (coerceEliminatedId r.eliminated_id
              ∉ s.user_profiles.map Persona.profile_id →
            (step5_eliminate_profile oracle s).user_profiles
              = s.user_profiles))) := by
  constructor
  · intro h
    simp only [step5_eliminate_profile, if_pos h]
  · intro h1 h2 hn
    have hg : ¬ s.user_profiles.length ≤ 1 := by omega
    constructor
    · rintro rfl
      simp only [step5_eliminate_profile, if_neg hg, h2, if_neg Bool.false_ne_true]
      cases hup : s.user_profiles with
      | nil => rw [hup] at h1; simp at h1
      | cons p rest => simp
    · rintro r rfl
      simp only [step5_eliminate_profile, if_neg hg, h2, if_neg Bool.false_ne_true]
      constructor
      · intro hmem
        exact filter_ne_length Persona.profile_id s.user_profiles
          (coerceEliminatedId r.eliminated_id) hn hmem
      · intro hmem
        exact filter_ne_eq_self Persona.profile_id s.user_profiles
          (coerceEliminatedId r.eliminated_id) hmem

/-- C1 witness: a fresh population of ids 1,2,3; the oracle names id 2,
which is present, and exactly one persona is removed. -/
theorem C1_elimination_witness :
    (step5_eliminate_profile (.ok ⟨.intVal 2, none⟩)
        (sampleState [1, 2, 3])).user_profiles.length + 1
      = (sampleState [1, 2, 3]).user_profiles.length :=
  (((C1_elimination_removes_at_most_one (sampleState [1, 2, 3])
      (.ok ⟨.intVal 2, none⟩)).2 (by decide) rfl (by decide)).2
    ⟨.intVal 2, none⟩ rfl).1 (by decide)

/-! ## C2 — persona / score-vector lockstep (amended) -/

/-- C2 amended: when the oracle reply is used, the persona set and the
score-vector set are filtered by the same id in the same operation, so a
lockstep state stays in lockstep; but the oracle-failure fallback updates
ONLY the persona list — `quantitative_analysis` is untouched on that
path, so after a fallback elimination the two sets mismatch (see the
counterexample). -/
theorem C2_lockstep_on_success (s : SessionState)
    (h : s.user_profiles.map Persona.profile_id
        = s.quantitative_analysis.map ScoreVector.profile_id) :
    (∀ r, (step5_eliminate_profile (.ok r) s).user_profiles.map Persona.profile_id
        = (step5_eliminate_profile (.ok r) s).quantitative_analysis.map
            ScoreVector.profile_id) ∧
    ((step5_eliminate_profile .failure s).quantitative_analysis
        = s.quantitative_analysis) := by
  constructor
  · intro r
    by_cases hg : s.user_profiles.length ≤ 1
    · simp only [step5_eliminate_profile, if_pos hg]
      exact h
    · by_cases hc : s.elimination_completed = true
      · simp only [step5_eliminate_profile, if_neg hg, hc, if_pos trivial]
        exact h
      · rw [Bool.not_eq_true] at hc
        simp only [step5_eliminate_profile, if_neg hg, hc,
          if_neg Bool.false_ne_true]
        rw [map_filter_ne, map_filter_ne, h]
  · by_cases hg : s.user_profiles.length ≤ 1
    · simp only [step5_eliminate_profile, if_pos hg]
    · by_cases hc : s.elimination_completed = true
      · simp only [step5_eliminate_profile, if_neg hg, hc, if_pos trivial]
      · rw [Bool.not_eq_true] at hc
        simp only [step5_eliminate_profile, if_neg hg, hc,
          if_neg Bool.false_ne_true]
        cases hup : s.user_profiles with
        | nil => rfl
        | cons p rest => rfl

/-- C2 witness: lockstep population of ids 1,2,3; a successful oracle
round keeps the two sets in lockstep. -/
theorem C2_lockstep_witness :
    (step5_eliminate_profile (.ok ⟨.intVal 2, none⟩)
        (sampleState [1, 2, 3])).user_profiles.map Persona.profile_id
      = (step5_eliminate_profile (.ok ⟨.intVal 2, none⟩)
          (sampleState [1, 2, 3])).quantitative_analysis.map
            ScoreVector.profile_id :=
  (C2_lockstep_on_success (sampleState [1, 2, 3]) (by decide)).1
    ⟨.intVal 2, none⟩

/-! ## C3 — fallback on coercion/oracle failure (amended) -/

/-- C3 amended: on a successful oracle reply the surviving set is always
`profile_id != coerced id`, and a non-coercible or absent
`eliminated_id` coerces to the DEFAULT id 1 (so the persona with
profile_id 1 is removed if present, not the first persona in current
ordering), with the oracle-reported reason (default
"ユーザーの回答履歴と一致しない") — the reason string
"fallback — oracle unavailable" does not exist in the code.  Only an
ORACLE-CALL failure removes the population's first element, and its
recorded reason is "システムエラー". -/
theorem C3_fallback_defaults_to_id_one (s : SessionState)
    (h1 : 1 < s.user_profiles.length) (h2 : s.elimination_completed = false) :
    (∀ r, (step5_eliminate_profile (.ok r) s).user_profiles
        = s.user_profiles.filter
            (fun p => p.profile_id ≠ coerceEliminatedId r.eliminated_id)) ∧
    coerceEliminatedId .notCoercible = 1 ∧
    coerceEliminatedId .absent = 1 ∧
    (∀ ro, (step5_eliminate_profile (.ok ⟨.notCoercible, ro⟩)
          s).elimination_history
        = s.elimination_history
            ++ [⟨1, ro.getD "ユーザーの回答履歴と一致しない",
                  s.questions_asked.getLast?.getD "N/A",
                  s.answers_given.getLast?.getD "N/A"⟩]) ∧
    (∀ p rest, s.user_profiles = p :: rest →
        (step5_eliminate_profile .failure s).user_profiles = rest ∧
        (step5_eliminate_profile .failure s).elimination_history
          = s.elimination_history
              ++ [⟨p.profile_id, "システムエラー", "N/A", "N/A"⟩]) := by
  have hg : ¬ s.user_profiles.length ≤ 1 := by omega
  refine ⟨?_, rfl, rfl, ?_, ?_⟩
  · intro r
    simp only [step5_eliminate_profile, if_neg hg, h2, if_neg Bool.false_ne_true]
  · intro ro
    simp only [step5_eliminate_profile, if_neg hg, h2, if_neg Bool.false_ne_true]
    rfl
  · intro p rest hup
    have hg2 : ¬ (p :: rest).length ≤ 1 := by rw [← hup]; exact hg
    simp only [step5_eliminate_profile, hup, if_neg hg2, h2,
      if_neg Bool.false_ne_true]
    constructor <;> trivial

/-- C3 witness: with personas 2,3 and a failing oracle call, the first
persona (id 2) is removed and the reason recorded is "システムエラー". -/
theorem C3_fallback_witness :
    (step5_eliminate_profile .failure (sampleState [2, 3])).user_profiles
      = [samplePersona 3] ∧
    (step5_eliminate_profile .failure
        (sampleState [2, 3])).elimination_history
      = [⟨2, "システムエラー", "N/A", "N/A"⟩] :=
  (C3_fallback_defaults_to_id_one (sampleState [2, 3]) (by decide) rfl).2.2.2.2
    (samplePersona 2) [samplePersona 3] rfl

/-! ## Helper lemmas for the question selector -/

theorem le_foldl_max (ys : List ℚ) : ∀ a : ℚ, a ≤ ys.foldl max a := by
  induction ys with
  | nil => intro a; exact le_refl a
  | cons y ys ih =>
    intro a
    rw [List.foldl_cons]
    exact le_trans (le_max_left a y) (ih (max a y))

theorem foldl_max_mem (ys : List ℚ) :
    ∀ a : ℚ, ys.foldl max a = a ∨ ys.foldl max a ∈ ys := by
  induction ys with
  | nil => exact fun a => Or.inl rfl
  | cons y ys ih =>
    intro a
    rw [List.foldl_cons]
    rcases ih (max a y) with h | h
    · rw [h]
      rcases max_choice a y with hm | hm
      · exact Or.inl hm
      · rw [hm]; exact Or.inr (List.mem_cons_self y ys)
    · exact Or.inr (List.mem_cons_of_mem y h)

theorem mem_le_foldl_max (ys : List ℚ) :
    ∀ a x : ℚ, x ∈ ys → x ≤ ys.foldl max a := by
  induction ys with
  | nil => intro a x hx; simp at hx
  | cons y ys ih =>
    intro a x hx
    rw [List.foldl_cons]
    rcases List.mem_cons.1 hx with h | h
    · subst h
      exact le_trans (le_max_right a x) (le_foldl_max ys (max a x))
    · exact ih (max a y) x h

theorem listMax_mem (l : List ℚ) (h : l ≠ []) : listMax l ∈ l := by
  cases l with
  | nil => exact absurd rfl h
  | cons x xs =>
    rw [listMax]
    rcases foldl_max_mem xs x with h2 | h2
    · rw [h2]; exact List.mem_cons_self x xs
    · exact List.mem_cons_of_mem x h2

theorem le_listMax (l : List ℚ) (x : ℚ) (hx : x ∈ l) : x ≤ listMax l := by
  cases l with
  | nil => simp at hx
  | cons y ys =>
    rw [listMax]
    rcases List.mem_cons.1 hx with h | h
    · subst h; exact le_foldl_max ys x
    · exact mem_le_foldl_max ys y x h

theorem argmax_lt_length (l : List ℚ) (h : l ≠ []) : argmax l < l.length := by
  rw [argmax]
  exact List.findIdx_lt_length_of_exists ⟨listMax l, listMax_mem l h, by simp⟩

theorem getD_mem_of_lt (l : List ℚ) (j : Nat) (hj : j < l.length) :
    l.getD j 0 ∈ l := by
  rw [List.getD_eq_getElem?_getD, List.getElem?_eq_getElem hj]
  exact List.getElem_mem hj

theorem argmax_getD (l : List ℚ) (h : l ≠ []) :
    l.getD (argmax l) 0 = listMax l := by
  have hlt : argmax l < l.length := argmax_lt_length l h
  have hlt2 : l.findIdx (fun x => decide (x = listMax l)) < l.length := by
    rw [argmax] at hlt
    exact hlt
  have h2 : l[l.findIdx (fun x => decide (x = listMax l))]? = some (listMax l) := by
    rw [List.getElem?_eq_getElem hlt2]
    have h3 := @List.findIdx_getElem ℚ (fun x => decide (x = listMax l)) l hlt2
    simp only [decide_eq_true_eq] at h3
    exact congrArg some h3
  have harg : l[argmax l]? = l[l.findIdx (fun x => decide (x = listMax l))]? := by
    rw [argmax]
  rw [List.getD_eq_getElem?_getD, harg, h2]
  rfl

theorem getD_ne_listMax_of_lt_argmax (l : List ℚ) (j : Nat)
    (hj : j < argmax l) : l.getD j 0 ≠ listMax l := by
  have hjl : j < l.length := by
    rw [argmax] at hj
    exact lt_of_lt_of_le hj (List.findIdx_le_length _)
  have h2 := @List.not_of_lt_findIdx ℚ (fun x => decide (x = listMax l)) l j
    (by rw [argmax] at hj; exact hj)
  simp only [decide_eq_false_iff_not] at h2
  rw [List.getD_eq_getElem?_getD, List.getElem?_eq_getElem hjl]
  exact h2

theorem sq_sum_le_length_mul_sum_sq (l : List Int) :
    l.sum ^ 2 ≤ (l.length : Int) * (l.map (fun x => x ^ 2)).sum := by
  induction l with
  | nil => simp
  | cons a t ih =>
    rw [List.sum_cons, List.map_cons, List.sum_cons, List.length_cons]
    cases t with
    | nil => simp
    | cons b u =>
      have hn1 : (1 : Int) ≤ ((b :: u).length : Int) := by
        rw [List.length_cons]
        push_cast
        omega
      push_cast
      nlinarith [ih, sq_nonneg (((b :: u).length : Int) * a - (b :: u).sum), hn1,
        mul_nonneg (le_trans zero_le_one hn1) (sub_nonneg.mpr ih)]

theorem varNum_nonneg (col : List Int) : 0 ≤ varNum col := by
  rw [varNum]
  have := sq_sum_le_length_mul_sum_sq col
  omega

theorem npVar_nonneg (col : List Int) : 0 ≤ npVar col := by
  rw [npVar]
  split
  · exact le_refl 0
  · apply div_nonneg
    · exact_mod_cast varNum_nonneg col
    · positivity

theorem variancesOf_length (m : List (List Int)) :
    (variancesOf m).length = 7 := by
  simp [variancesOf]

theorem variancesOf_getD (m : List (List Int)) (j : Nat) (hj : j < 7) :
    (variancesOf m).getD j 0 = npVar (colOf m j) := by
  rw [variancesOf]
  simp [List.getD_eq_getElem?_getD, List.getElem?_map, List.getElem?_range hj]

theorem maskVariances_length (used : List Nat) (vars : List ℚ) :
    (maskVariances used vars).length = vars.length := by
  simp [maskVariances]

theorem maskVariances_getD (used : List Nat) (vars : List ℚ) (i : Nat)
    (hi : i < vars.length) :
    (maskVariances used vars).getD i 0
      = if i ∈ used then -1 else vars.getD i 0 := by
  rw [maskVariances]
  simp [List.getD_eq_getElem?_getD, List.getElem?_map, List.getElem?_range hi]

theorem maskedOf_length (m : List (List Int)) (used : List Nat) :
    (maskedOf m used).length = 7 := by
  rw [maskedOf, maskVariances_length, variancesOf_length]

theorem maskedOf_ne_nil (m : List (List Int)) (used : List Nat) :
    maskedOf m used ≠ [] := by
  intro h
  have h2 := maskedOf_length m used
  rw [h] at h2
  simp at h2

theorem maskedOf_getD (m : List (List Int)) (used : List Nat) (i : Nat)
    (hi : i < 7) :
    (maskedOf m used).getD i 0
      = if i ∈ used then -1 else npVar (colOf m i) := by
  rw [maskedOf,
    maskVariances_getD used (variancesOf m) i (by rw [variancesOf_length]; exact hi),
    variancesOf_getD m i hi]

/-- Executable characterization of `selectDimension` (definitional). -/
theorem selectDimension_eq (m : List (List Int)) (used : List Nat) :
    selectDimension m used =
      if (maskedOf m used).getD (argmax (maskedOf m used)) 0 = -1 then
        ⟨argmax (variancesOf m), [argmax (variancesOf m)], true⟩
      else
        ⟨argmax (maskedOf m used), used ++ [argmax (maskedOf m used)], false⟩ :=
  rfl

/-! ## C4 — question selector policy -/

/-- C4: the dimension selector (a) never selects a dimension already in
`used_scale_indices` while any unused dimension among the 7 remains —
used dimensions are forced to the sentinel -1.0, strictly below every
true variance, which is non-negative; (b) when all 7 dimensions are used,
the used set is reset within the same call (the selection recomputed from
the unmasked variances and the post-call used list is exactly the fresh
singleton); (c) the selection is a deterministic function of the variance
vector — identical variance vectors give identical selections; (d) in a
normal (non-reset) round the chosen index is the FIRST index attaining
the maximum masked variance; and (e) with no used dimensions and all
variances tied, dimension id 0 is chosen. -/
theorem C4_question_selector (m : List (List Int)) (used : List Nat) :
    ((∃ j, j < 7 ∧ j ∉ used) → (selectDimension m used).index ∉ used) ∧
    ((∀ j, j < 7 → j ∈ used) →
        (selectDimension m used).didReset = true ∧
        (selectDimension m used).used_after = [(selectDimension m used).index] ∧
        (selectDimension m used).index = argmax (variancesOf m)) ∧
    (∀ m2, variancesOf m2 = variancesOf m →
        selectDimension m2 used = selectDimension m used) ∧
    ((selectDimension m used).didReset = false →
        (selectDimension m used).index < 7 ∧
        (selectDimension m used).used_after
          = used ++ [(selectDimension m used).index] ∧
        (∀ j, j < 7 →
            (maskedOf m used).getD j 0
              ≤ (maskedOf m used).getD (selectDimension m used).index 0) ∧
        (∀ j, j < (selectDimension m used).index →
            (maskedOf m used).getD j 0
              < (maskedOf m used).getD (selectDimension m used).index 0)) ∧
    (used = [] →
        (∀ i, i < 7 → ∀ j, j < 7 →
            (variancesOf m).getD i 0 = (variancesOf m).getD j 0) →
        (selectDimension m used).index = 0) := by
  have hlen : (maskedOf m used).length = 7 := maskedOf_length m used
  have hne : maskedOf m used ≠ [] := maskedOf_ne_nil m used
  have hmi : argmax (maskedOf m used) < 7 := by
    have h2 := argmax_lt_length (maskedOf m used) hne
    rw [hlen] at h2
    exact h2
  have hval : (maskedOf m used).getD (argmax (maskedOf m used)) 0
      = listMax (maskedOf m used) := argmax_getD (maskedOf m used) hne
  refine ⟨?_, ?_, ?_, ?_, ?_⟩
  · rintro ⟨j, hj7, hju⟩
    have hj0 : 0 ≤ (maskedOf m used).getD j 0 := by
      rw [maskedOf_getD m used j hj7, if_neg hju]
      exact npVar_nonneg _
    have hjmem : (maskedOf m used).getD j 0 ∈ maskedOf m used :=
      getD_mem_of_lt (maskedOf m used) j (by rw [hlen]; exact hj7)
    have hmax0 : 0 ≤ listMax (maskedOf m used) :=
      le_trans hj0 (le_listMax (maskedOf m used) _ hjmem)
    have hcond : ¬ (maskedOf m used).getD (argmax (maskedOf m used)) 0 = -1 := by
      rw [hval]
      intro hEq
      rw [hEq] at hmax0
      norm_num at hmax0
    rw [selectDimension_eq, if_neg hcond]
    intro hmem
    apply hcond
    rw [maskedOf_getD m used _ hmi, if_pos hmem]
  · intro hall
    have hcond : (maskedOf m used).getD (argmax (maskedOf m used)) 0 = -1 := by
      rw [maskedOf_getD m used _ hmi, if_pos (hall _ hmi)]
    rw [selectDimension_eq, if_pos hcond]
    exact ⟨rfl, rfl, rfl⟩
  · intro m2 h
    rw [selectDimension_eq, selectDimension_eq]
    rw [maskedOf, maskedOf, h]
  · intro hns
    by_cases hcond : (maskedOf m used).getD (argmax (maskedOf m used)) 0 = -1
    · rw [selectDimension_eq, if_pos hcond] at hns
      simp at hns
    · rw [selectDimension_eq, if_neg hcond] at hns ⊢
      refine ⟨hmi, rfl, ?_, ?_⟩
      · intro j hj
        have hjmem : (maskedOf m used).getD j 0 ∈ maskedOf m used :=
          getD_mem_of_lt (maskedOf m used) j (by rw [hlen]; exact hj)
        rw [hval]
        exact le_listMax (maskedOf m used) _ hjmem
      · intro j hj
        have hj7 : j < 7 := lt_trans hj hmi
        have hjmem : (maskedOf m used).getD j 0 ∈ maskedOf m used :=
          getD_mem_of_lt (maskedOf m used) j (by rw [hlen]; exact hj7)
        rw [hval]
        exact lt_of_le_of_ne (le_listMax (maskedOf m used) _ hjmem)
          (getD_ne_listMax_of_lt_argmax (maskedOf m used) j hj)
  · intro hu hties
    subst hu
    have hmeq : ∀ i, i < 7 →
        (maskedOf m []).getD i 0 = (variancesOf m).getD i 0 := by
      intro i hi
      rw [maskedOf_getD m [] i hi]
      rw [if_neg (List.not_mem_nil i)]
      rw [variancesOf_getD m i hi]
    have hone : ∀ i, i < 7 →
        (maskedOf m []).getD i 0 = (maskedOf m []).getD 0 0 := by
      intro i hi
      rw [hmeq i hi, hmeq 0 (by omega)]
      rw [variancesOf_getD m i hi, variancesOf_getD m 0 (by omega)]
      rw [← variancesOf_getD m i hi, ← variancesOf_getD m 0 (by omega)]
      exact hties i hi 0 (by omega)
    have hargzero : argmax (maskedOf m []) = 0 := by
      rcases Nat.eq_zero_or_pos (argmax (maskedOf m [])) with h0 | hpos
      · exact h0
      · exfalso
        apply getD_ne_listMax_of_lt_argmax (maskedOf m []) 0 hpos
        rw [← argmax_getD (maskedOf m []) (maskedOf_ne_nil m [])]
        exact (hone _ (by
          have h3 := argmax_lt_length (maskedOf m []) (maskedOf_ne_nil m [])
          rw [maskedOf_length] at h3
          exact h3)).symm
    rw [selectDimension_eq]
    split
    · next hcond =>
      dsimp only
      rw [hargzero] at hcond
      rw [hmeq 0 (by omega)] at hcond
      exfalso
      have h0 : 0 ≤ (variancesOf m).getD 0 0 := by
        rw [variancesOf_getD m 0 (by omega)]
        exact npVar_nonneg _
      rw [hcond] at h0
      norm_num at h0
    · exact hargzero

/-- C4 witness: the sample two-row score matrix whose columns 0 and 6
have the strictly largest variance; with dimension 0 already used, the
selector picks an unused dimension (index 6), and with all seven used it
resets. -/
theorem C4_question_selector_witness :
    (selectDimension [[1, 2, 3, 4, 5, 6, 7], [7, 6, 5, 4, 3, 2, 1]] [0]).index
        ∉ ([0] : List Nat) ∧
    (selectDimension [[5, 5, 5, 5, 5, 5, 5], [5, 5, 5, 5, 5, 5, 5]] []).index
        = 0 ∧
    (selectDimension [[1, 2, 3, 4, 5, 6, 7], [7, 6, 5, 4, 3, 2, 1]]
        [0, 1, 2, 3, 4, 5, 6]).didReset = true := by
  refine ⟨?_, ?_, ?_⟩
  · exact (C4_question_selector [[1, 2, 3, 4, 5, 6, 7], [7, 6, 5, 4, 3, 2, 1]]
      [0]).1 ⟨1, by omega, by decide⟩
  · have hz : ∀ i, i < 7 →
        (variancesOf [[5, 5, 5, 5, 5, 5, 5], [5, 5, 5, 5, 5, 5, 5]]).getD i 0
          = 0 := by
      intro i hi
      rw [variancesOf_getD _ i hi, npVar]
      rw [if_neg (by interval_cases i <;> decide)]
      have hv : varNum (colOf [[5, 5, 5, 5, 5, 5, 5], [5, 5, 5, 5, 5, 5, 5]] i)
          = 0 := by
        interval_cases i <;> decide
      rw [hv]
      norm_num
    exact (C4_question_selector [[5, 5, 5, 5, 5, 5, 5], [5, 5, 5, 5, 5, 5, 5]]
      []).2.2.2.2 rfl (fun i hi j hj => by rw [hz i hi, hz j hj])
  · exact ((C4_question_selector [[1, 2, 3, 4, 5, 6, 7], [7, 6, 5, 4, 3, 2, 1]]
      [0, 1, 2, 3, 4, 5, 6]).2.1 (by decide)).1

end MovieRec
